import Mathlib

/-!
Verification of the BullMQ background-job setup of the helloworld-node-monorepo
repository. The shared config package keeps three module-level singletons
(`queueConnection`, `myQueue`, `worker`) managed by getter/close functions;
we embed that module state as an explicit `ConfigState` threaded through the
operations, giving each created instance a fresh allocation id so that
"same instance" and "new instance" are expressible. Calls to `quit()` /
`close()` on a connection or worker are recorded in `closedConns` /
`closedWorkers`.
-/

namespace JobQueue

/-- Environment shape of `packages/config/src/env.ts`: the zod schema fields,
with the optional credentials as `Option`.  The concrete values are opaque
inputs, so operations take the environment as a parameter. -/
structure Env where
  MONGODB_URL : String
  REDIS_URL : String
  REDIS_USERNAME : Option String
  REDIS_PASSWORD : Option String
deriving DecidableEq, Repr

/-- The zod defaults of `env.ts` when the process environment sets nothing. -/
def defaultEnv : Env :=
  { MONGODB_URL := "mongodb://localhost:27017/myapp"
    REDIS_URL := "redis://localhost:6379"
    REDIS_USERNAME := none
    REDIS_PASSWORD := none }

/-- A Redis connection instance as created by `new Redis(env.REDIS_URL, {...})`
in `queue.ts`.  `id` is the allocation identity; the remaining fields record
the constructor arguments (`maxRetriesPerRequest: null`,
`enableReadyCheck: true`, and the conditionally spread credentials). -/
structure Redis where
  id : Nat
  url : String
  maxRetriesPerRequest : Option Nat
  enableReadyCheck : Bool
  password : Option String
  username : Option String
deriving DecidableEq, Repr

/-- A BullMQ `Queue` handle as created in `queues.ts`: bound to a name and to
the connection (by id) passed in its options. -/
structure Queue where
  id : Nat
  name : String
  conn : Nat
deriving DecidableEq, Repr

/-- A BullMQ `Worker` handle as created in `worker.ts`: bound to the queue
name, the connection id, and the literal config of the source
(`concurrency: 5`, `lockDuration: 60000`, `stalledInterval: 30000`). -/
structure Worker where
  id : Nat
  queueName : String
  conn : Nat
  concurrency : Nat
  lockDuration : Nat
  stalledInterval : Nat
deriving DecidableEq, Repr

/-- The module-level mutable state of the config package and the worker
module: the three cached singletons, a fresh-id counter, and the record of
which connection / worker instances have had `quit()` / `close()` called. -/
structure ConfigState where
  queueConnection : Option Redis
  myQueue : Option Queue
  worker : Option Worker
  nextId : Nat
  closedConns : List Nat
  closedWorkers : List Nat
deriving DecidableEq, Repr

/-- The state at module load: every singleton is `null`, nothing closed. -/
def initialState : ConfigState :=
  { queueConnection := none, myQueue := none, worker := none
    nextId := 0, closedConns := [], closedWorkers := [] }

/-- `getQueueConnection` of `queue.ts`: return the cached connection, creating
it on first call from the environment. -/
def getQueueConnection (e : Env) (s : ConfigState) : Redis × ConfigState :=
  match s.queueConnection with
  | some c => (c, s)
  | none =>
      let c : Redis :=
        { id := s.nextId, url := e.REDIS_URL
          maxRetriesPerRequest := none, enableReadyCheck := true
          password := e.REDIS_PASSWORD, username := e.REDIS_USERNAME }
      (c, { s with queueConnection := some c, nextId := s.nextId + 1 })

/-- `closeQueueConnection` of `queue.ts`: if a connection is cached, `quit()`
it (recorded in `closedConns`) and null the cache; otherwise do nothing. -/
def closeQueueConnection (s : ConfigState) : ConfigState :=
  match s.queueConnection with
  | some c => { s with queueConnection := none, closedConns := c.id :: s.closedConns }
  | none => s

/-- `getMyQueue` of `queues.ts`: return the cached queue, creating
`new Queue("myQueueName", { connection: getQueueConnection() })` on first
call. -/
def getMyQueue (e : Env) (s : ConfigState) : Queue × ConfigState :=
  match s.myQueue with
  | some q => (q, s)
  | none =>
      let (c, s1) := getQueueConnection e s
      let q : Queue := { id := s1.nextId, name := "myQueueName", conn := c.id }
      (q, { s1 with myQueue := some q, nextId := s1.nextId + 1 })

/-- `startWorker` of `worker.ts`: if a worker is cached return it; otherwise
resolve `getMyQueue()` and build `new Worker(myQueue.name, handler,
{ connection: getQueueConnection(), concurrency: 5, lockDuration: 60000,
stalledInterval: 30000 })`, cache and return it. -/
def startWorker (e : Env) (s : ConfigState) : Worker × ConfigState :=
  match s.worker with
  | some w => (w, s)
  | none =>
      let (q, s1) := getMyQueue e s
      let (c, s2) := getQueueConnection e s1
      let w : Worker :=
        { id := s2.nextId, queueName := q.name, conn := c.id
          concurrency := 5, lockDuration := 60000, stalledInterval := 30000 }
      (w, { s2 with worker := some w, nextId := s2.nextId + 1 })

/-- `stopWorker` of `worker.ts`: if no worker is cached return immediately;
otherwise `await worker.close()` (recorded in `closedWorkers`), then
`closeQueueConnection()`, then null the worker cache. -/
def stopWorker (s : ConfigState) : ConfigState :=
  match s.worker with
  | none => s
  | some w =>
      let s1 := { s with closedWorkers := w.id :: s.closedWorkers }
      let s2 := closeQueueConnection s1
      { s2 with worker := none }

/-- Allocation sanity of the module state: every cached instance carries an id
below the fresh-id counter, and the cached queue is the one created by
`getMyQueue`, hence named `"myQueueName"`.  Holds of `initialState` and is
preserved by every operation; reachable module states satisfy it. -/
def wf (s : ConfigState) : Bool :=
  (match s.queueConnection with | some c => c.id < s.nextId | none => true) &&
  (match s.myQueue with
   | some q => decide (q.id < s.nextId) && (q.name == "myQueueName")
   | none => true) &&
  (match s.worker with | some w => w.id < s.nextId | none => true)

/-- The module state after the first `getQueueConnection()` call. -/
def connectedState : ConfigState := (getQueueConnection defaultEnv initialState).2

/-- The module state after the first `getMyQueue()` call. -/
def queueReadyState : ConfigState := (getMyQueue defaultEnv initialState).2

/-- The module state after the first `startWorker()` call. -/
def startedState : ConfigState := (startWorker defaultEnv initialState).2

/-- Backoff policy kind of the enqueue options (`type: "fixed" | "exponential"`). -/
inductive BackoffKind where
  | fixed
  | exponential
deriving DecidableEq, Repr

/-- Backoff options as passed in `getMyQueue().add(..., { backoff: { type, delay } })`. -/
structure BackoffOpts where
  kind : BackoffKind
  delay : Nat
deriving DecidableEq, Repr

/-- Recognized enqueue options of `getMyQueue().add`. -/
structure AddOpts where
  attempts : Nat
  backoff : BackoffOpts
  removeOnComplete : Bool
  removeOnFail : Bool
deriving DecidableEq, Repr

/-- The literal options of the "With Options" usage example in the setup
guide: `attempts: 3, backoff: { type: "exponential", delay: 2000 },
removeOnComplete: true, removeOnFail: false`. -/
def exampleAddOptions : AddOpts :=
  { attempts := 3
    backoff := { kind := BackoffKind.exponential, delay := 2000 }
    removeOnComplete := true
    removeOnFail := false }

/-- Job states of the job state machine described by the spec (the broker's
internals are not part of the repository sources). -/
inductive JState where
  | waiting
  | active
  | failedRetryable
  | failedTerminal
  | completed
deriving DecidableEq, Repr

/-- A job record: its state and retry bookkeeping (attempt count and the
configured maximum). -/
structure JobRec where
  state : JState
  attempts : Nat
  maxAttempts : Nat
deriving DecidableEq, Repr

/-- Modelled from the spec: the broker's claim transition is not in the
sources.  Claiming a `waiting` job sets it `active` and increments its
attempt count. -/
def stepClaim (j : JobRec) : JobRec :=
  if j.state = JState.waiting then
    { j with state := JState.active, attempts := j.attempts + 1 }
  else j

/-- Modelled from the spec: the broker's failure transition is not in the
sources.  On a retryable handler error, an `active` job whose attempt count
is still below `maxAttempts` becomes `failed-retryable`; once the attempt
count has reached `maxAttempts` it becomes `failed-terminal`. -/
def stepFail (j : JobRec) : JobRec :=
  if j.state = JState.active then
    if j.attempts < j.maxAttempts then { j with state := JState.failedRetryable }
    else { j with state := JState.failedTerminal }
  else j

/-- Modelled from the spec: the broker's backoff re-entry transition is not in
the sources.  After its backoff delay elapses, a `failed-retryable` job
re-enters `waiting`. -/
def stepReenter (j : JobRec) : JobRec :=
  if j.state = JState.failedRetryable then { j with state := JState.waiting } else j

/-- Modelled from the spec: run a job whose handler always throws a retryable
error until it stops changing, counting how many
`waiting → active → failed-retryable` cycles occur before the final record.
The first component is that cycle count, the second the record where the run
stopped (fuel-bounded; `maxAttempts` fuel suffices from a fresh job). -/
def runToTerminal : Nat → JobRec → Nat × JobRec
  | 0, j => (0, j)
  | fuel + 1, j =>
      let j1 := stepFail (stepClaim j)
      if j1.state = JState.failedRetryable then
        let r := runToTerminal fuel (stepReenter j1)
        (r.1 + 1, r.2)
      else (0, j1)

/-- Modelled from the spec: the backoff delay computation is not in the
sources.  Fixed backoff waits `baseDelay`; exponential backoff waits
`baseDelay * 2 ^ (attempt - 1)`; both are capped at a configured maximum
delay. -/
def backoffDelay (k : BackoffKind) (baseDelay maxDelay attempt : Nat) : Nat :=
  match k with
  | BackoffKind.fixed => min baseDelay maxDelay
  | BackoffKind.exponential => min (baseDelay * 2 ^ (attempt - 1)) maxDelay

/-- Modelled from the spec: the worker pool's claim loop is not in the
sources.  A pool is a multiset of job states; a step claims a `waiting` job
only while fewer than `N` (= `concurrency`) claims are active, finishes an
`active` job as `completed` / `failed-retryable` / `failed-terminal`, returns
a stalled `active` job to `waiting`, re-enters a `failed-retryable` job into
`waiting`, or enqueues a fresh `waiting` job. -/
inductive PoolStep (N : Nat) : Multiset JState → Multiset JState → Prop where
  | claim (rest : Multiset JState) :
      Multiset.count JState.active rest < N →
      PoolStep N (JState.waiting ::ₘ rest) (JState.active ::ₘ rest)
  | complete (rest : Multiset JState) :
      PoolStep N (JState.active ::ₘ rest) (JState.completed ::ₘ rest)
  | failRetryable (rest : Multiset JState) :
      PoolStep N (JState.active ::ₘ rest) (JState.failedRetryable ::ₘ rest)
  | failTerminal (rest : Multiset JState) :
      PoolStep N (JState.active ::ₘ rest) (JState.failedTerminal ::ₘ rest)
  | stalled (rest : Multiset JState) :
      PoolStep N (JState.active ::ₘ rest) (JState.waiting ::ₘ rest)
  | reenterWaiting (rest : Multiset JState) :
      PoolStep N (JState.failedRetryable ::ₘ rest) (JState.waiting ::ₘ rest)
  | enqueue (jobs : Multiset JState) :
      PoolStep N jobs (JState.waiting ::ₘ jobs)

/-- Redis instances with different allocation ids are different instances. -/
theorem Redis.ne_of_id_ne {a b : Redis} (h : a.id ≠ b.id) : a ≠ b :=
  fun hEq => h (congrArg Redis.id hEq)

theorem wf_initial : wf initialState = true := by decide

theorem wf_getQueueConnection (e : Env) (s : ConfigState) (h : wf s = true) :
    wf (getQueueConnection e s).2 = true := by
  obtain ⟨c0, q0, w0, n0, cc0, cw0⟩ := s
  cases c0 <;> cases q0 <;> cases w0 <;>
    simp_all [wf, getQueueConnection] <;> omega

theorem wf_closeQueueConnection (s : ConfigState) (h : wf s = true) :
    wf (closeQueueConnection s) = true := by
  obtain ⟨c0, q0, w0, n0, cc0, cw0⟩ := s
  cases c0 <;> cases q0 <;> cases w0 <;>
    simp_all [wf, closeQueueConnection]

theorem wf_getMyQueue (e : Env) (s : ConfigState) (h : wf s = true) :
    wf (getMyQueue e s).2 = true := by
  obtain ⟨c0, q0, w0, n0, cc0, cw0⟩ := s
  cases c0 <;> cases q0 <;> cases w0 <;>
    simp_all [wf, getMyQueue, getQueueConnection] <;> omega

theorem wf_startWorker (e : Env) (s : ConfigState) (h : wf s = true) :
    wf (startWorker e s).2 = true := by
  obtain ⟨c0, q0, w0, n0, cc0, cw0⟩ := s
  cases c0 <;> cases q0 <;> cases w0 <;>
    simp_all [wf, startWorker, getMyQueue, getQueueConnection] <;> omega

theorem wf_stopWorker (s : ConfigState) (h : wf s = true) :
    wf (stopWorker s) = true := by
  obtain ⟨c0, q0, w0, n0, cc0, cw0⟩ := s
  cases c0 <;> cases q0 <;> cases w0 <;>
    simp_all [wf, stopWorker, closeQueueConnection]

/-- C1: `getQueueConnection` (acquire) called twice with no intervening close
returns the identical connection instance, and `closeQueueConnection`
(release) followed by `getQueueConnection` creates and returns a new
connection instance distinct from the released one. -/
theorem c1_acquire_twice_and_release_acquire (e : Env) (s : ConfigState)
    (h : wf s = true) :
    (getQueueConnection e (getQueueConnection e s).2).1
      = (getQueueConnection e s).1 ∧
    (getQueueConnection e (closeQueueConnection (getQueueConnection e s).2)).1
      ≠ (getQueueConnection e s).1 := by
  obtain ⟨c0, q0, w0, n0, cc0, cw0⟩ := s
  cases c0 with
  | none =>
      refine ⟨rfl, Redis.ne_of_id_ne ?_⟩
      simp [getQueueConnection, closeQueueConnection]
  | some c =>
      have h1 : c.id < n0 := by
        cases q0 <;> cases w0 <;> simp_all [wf]
      refine ⟨rfl, Redis.ne_of_id_ne ?_⟩
      simp [getQueueConnection, closeQueueConnection]
      omega

theorem c1_witness :
    wf initialState = true ∧
    ((getQueueConnection defaultEnv (getQueueConnection defaultEnv initialState).2).1
        = (getQueueConnection defaultEnv initialState).1 ∧
      (getQueueConnection defaultEnv
          (closeQueueConnection (getQueueConnection defaultEnv initialState).2)).1
        ≠ (getQueueConnection defaultEnv initialState).1) :=
  ⟨by decide, c1_acquire_twice_and_release_acquire defaultEnv initialState (by decide)⟩

/-- C2: `closeQueueConnection` (release) is idempotent: when a connection is
cached, one call quits the underlying link and clears the cache; a repeated
call is a no-op, and so is a call when no connection was ever created. -/
theorem c2_release_idempotent (s : ConfigState) :
    (∀ c, s.queueConnection = some c →
        (closeQueueConnection s).queueConnection = none ∧
        c.id ∈ (closeQueueConnection s).closedConns) ∧
    closeQueueConnection (closeQueueConnection s) = closeQueueConnection s ∧
    (s.queueConnection = none → closeQueueConnection s = s) := by
  obtain ⟨c0, q0, w0, n0, cc0, cw0⟩ := s
  cases c0 <;> simp [closeQueueConnection]

theorem c2_witness :
    connectedState.queueConnection
        = some (getQueueConnection defaultEnv initialState).1 ∧
    ((closeQueueConnection connectedState).queueConnection = none ∧
      (getQueueConnection defaultEnv initialState).1.id
        ∈ (closeQueueConnection connectedState).closedConns) :=
  ⟨rfl, (c2_release_idempotent connectedState).1
    (getQueueConnection defaultEnv initialState).1 rfl⟩

/-- C3: `getMyQueue` is an idempotent get-or-create: every call returns a
handle bound to the name `"myQueueName"`, and a second call returns the very
same cached Queue instance without changing the state (no duplicate
creation). -/
theorem c3_getMyQueue_idempotent (e : Env) (s : ConfigState) (h : wf s = true) :
    (getMyQueue e s).1.name = "myQueueName" ∧
    getMyQueue e (getMyQueue e s).2 = getMyQueue e s := by
  obtain ⟨c0, q0, w0, n0, cc0, cw0⟩ := s
  cases q0 with
  | none => cases c0 <;> simp [getMyQueue, getQueueConnection]
  | some q =>
      have h1 : q.name = "myQueueName" := by
        cases c0 <;> cases w0 <;> simp_all [wf]
      exact ⟨h1, rfl⟩

theorem c3_witness :
    wf initialState = true ∧
    ((getMyQueue defaultEnv initialState).1.name = "myQueueName" ∧
      getMyQueue defaultEnv (getMyQueue defaultEnv initialState).2
        = getMyQueue defaultEnv initialState) :=
  ⟨by decide, c3_getMyQueue_idempotent defaultEnv initialState (by decide)⟩

/-- C4: `startWorker` is idempotent while running: if the worker singleton is
set, calling it again returns that same Worker instance and leaves the module
state completely unchanged. -/
theorem c4_startWorker_idempotent (e : Env) (s : ConfigState) (w : Worker)
    (h : s.worker = some w) : startWorker e s = (w, s) := by
  simp [startWorker, h]

theorem c4_witness :
    startedState.worker = some (startWorker defaultEnv initialState).1 ∧
    startWorker defaultEnv startedState
      = ((startWorker defaultEnv initialState).1, startedState) :=
  ⟨rfl, c4_startWorker_idempotent defaultEnv startedState
    (startWorker defaultEnv initialState).1 rfl⟩

/-- C5: `stopWorker` is idempotent and safe when not started (it returns
without changing any state), and when a worker is running it closes that
worker (the cooperative drain of `worker.close()`) and then releases the
shared connection, leaving both the worker reference and the cached
connection cleared. -/
theorem c5_stopWorker_idempotent_and_clears (s : ConfigState) :
    (s.worker = none → stopWorker s = s) ∧
    stopWorker (stopWorker s) = stopWorker s ∧
    (∀ w, s.worker = some w →
      (stopWorker s).worker = none ∧
      (stopWorker s).queueConnection = none ∧
      w.id ∈ (stopWorker s).closedWorkers) := by
  obtain ⟨c0, q0, w0, n0, cc0, cw0⟩ := s
  cases w0 <;> cases c0 <;> simp [stopWorker, closeQueueConnection]

theorem c5_witness :
    startedState.worker = some (startWorker defaultEnv initialState).1 ∧
    ((stopWorker startedState).worker = none ∧
      (stopWorker startedState).queueConnection = none ∧
      (startWorker defaultEnv initialState).1.id
        ∈ (stopWorker startedState).closedWorkers) :=
  ⟨rfl, (c5_stopWorker_idempotent_and_clears startedState).2.2
    (startWorker defaultEnv initialState).1 rfl⟩

/-- Running a perpetually-failing job from `waiting` with attempt count `a`
below `maxAttempts = m` performs `m - a - 1` retryable cycles and stops in
`failed-terminal` with attempt count `m`, given enough fuel. -/
theorem runToTerminal_waiting (fuel a m : Nat) (ha : a < m) (hf : m ≤ a + fuel) :
    runToTerminal fuel { state := JState.waiting, attempts := a, maxAttempts := m }
      = (m - a - 1,
         { state := JState.failedTerminal, attempts := m, maxAttempts := m }) := by
  induction fuel generalizing a with
  | zero => omega
  | succ fuel ih =>
      by_cases hlt : a + 1 < m
      · have hrec := ih (a + 1) hlt (by omega)
        simp [runToTerminal, stepClaim, stepFail, stepReenter, hlt, hrec]
        omega
      · have hm : a + 1 = m := by omega
        simp [runToTerminal, stepClaim, stepFail, hlt, hm]
        omega

/-- C6 (amended): a job whose handler always throws a retryable error makes
the `waiting → active → failed-retryable` cycle exactly `maxAttempts - 1`
times before the final `waiting → active → failed-terminal` transition, and
the transition steps leave a `failed-terminal` record unchanged. -/
theorem c6_retryable_cycle_count (m : Nat) (h : 1 ≤ m) :
    (runToTerminal m { state := JState.waiting, attempts := 0, maxAttempts := m }).1
      = m - 1 ∧
    (runToTerminal m { state := JState.waiting, attempts := 0, maxAttempts := m }).2
      = { state := JState.failedTerminal, attempts := m, maxAttempts := m } ∧
    (∀ j : JobRec, j.state = JState.failedTerminal →
      stepClaim j = j ∧ stepFail j = j ∧ stepReenter j = j) := by
  have hrun := runToTerminal_waiting m 0 m (by omega) (by omega)
  refine ⟨by simp [hrun], by simp [hrun], ?_⟩
  intro j hj
  simp [stepClaim, stepFail, stepReenter, hj]

theorem c6_witness :
    (runToTerminal 3 { state := JState.waiting, attempts := 0, maxAttempts := 3 }).1
      = 3 - 1 :=
  (c6_retryable_cycle_count 3 (by decide)).1

/-- C6 counterexample: with the guide's example options (`attempts: 3`), a
perpetually retryable-failing job performs the
`waiting → active → failed-retryable` cycle 2 times before `failed-terminal`,
not `maxAttempts = 3` times as claimed. -/
theorem c6_counterexample :
    (runToTerminal exampleAddOptions.attempts
        { state := JState.waiting, attempts := 0,
          maxAttempts := exampleAddOptions.attempts }).1 = 2 ∧
    (2 : Nat) ≠ exampleAddOptions.attempts := by decide

/-- C7 (amended): for attempt count `n ≥ 1` the backoff delay is the policy
formula capped at the configured maximum delay: it never exceeds `maxDelay`,
it equals `baseDelay` (fixed) or `baseDelay * 2 ^ (n - 1)` (exponential)
whenever that formula is within the cap, and in general it is the minimum of
the formula and the cap. -/
theorem c7_backoff_delay_capped (base mx n : Nat) (h : 1 ≤ n) :
    backoffDelay BackoffKind.fixed base mx n ≤ mx ∧
    backoffDelay BackoffKind.exponential base mx n ≤ mx ∧
    (base ≤ mx → backoffDelay BackoffKind.fixed base mx n = base) ∧
    (base * 2 ^ (n - 1) ≤ mx →
      backoffDelay BackoffKind.exponential base mx n = base * 2 ^ (n - 1)) ∧
    backoffDelay BackoffKind.fixed base mx n = min base mx ∧
    backoffDelay BackoffKind.exponential base mx n
      = min (base * 2 ^ (n - 1)) mx :=
  ⟨Nat.min_le_right _ _, Nat.min_le_right _ _,
   fun hb => Nat.min_eq_left hb, fun hb => Nat.min_eq_left hb, rfl, rfl⟩

theorem c7_witness :
    backoffDelay BackoffKind.exponential 2000 1000000 3 = 2000 * 2 ^ (3 - 1) :=
  (c7_backoff_delay_capped 2000 1000000 3 (by decide)).2.2.2.1 (by decide)

/-- C7 counterexample: with the guide's example `delay: 2000`, a maximum
delay of 1000 and attempt count 2, the exponential backoff delay is the
capped value 1000, not the uncapped `2000 * 2 ^ (2 - 1) = 4000` the claim's
equality demands. -/
theorem c7_counterexample :
    backoffDelay BackoffKind.exponential exampleAddOptions.backoff.delay 1000 2
      ≠ exampleAddOptions.backoff.delay * 2 ^ (2 - 1) ∧
    backoffDelay BackoffKind.exponential exampleAddOptions.backoff.delay 1000 2
      = 1000 := by decide

/-- C8: in every pool state reachable by `PoolStep N` from a state with no
active claims, at most `N = concurrency` jobs are in the `active` state
simultaneously. -/
theorem c8_active_at_most_concurrency (N : Nat) (s0 s : Multiset JState)
    (h0 : Multiset.count JState.active s0 = 0)
    (h : Relation.ReflTransGen (PoolStep N) s0 s) :
    Multiset.count JState.active s ≤ N := by
  induction h with
  | refl => omega
  | tail hab hstep ih =>
      cases hstep <;> simp_all [Multiset.count_cons] <;> omega

theorem c8_witness :
    Multiset.count JState.active (JState.active ::ₘ (0 : Multiset JState)) ≤ 5 :=
  c8_active_at_most_concurrency 5 (JState.waiting ::ₘ (0 : Multiset JState))
    (JState.active ::ₘ (0 : Multiset JState)) (by decide)
    (Relation.ReflTransGen.single (PoolStep.claim 0 (by decide)))

/-- C9: `closeQueueConnection` clears only the cached connection: the cached
queue handle and the worker reference are unchanged, and a `getMyQueue` call
after the close returns the stale cached Queue instance — still bound via its
`conn` id to the now-closed connection — rather than creating a queue on a
fresh connection. -/
theorem c9_close_leaves_stale_queue (e : Env) (s : ConfigState) :
    (closeQueueConnection s).myQueue = s.myQueue ∧
    (closeQueueConnection s).worker = s.worker ∧
    (∀ q c, s.myQueue = some q → s.queueConnection = some c →
      getMyQueue e (closeQueueConnection s) = (q, closeQueueConnection s) ∧
      (q.conn = c.id → q.conn ∈ (closeQueueConnection s).closedConns)) := by
  obtain ⟨c0, q0, w0, n0, cc0, cw0⟩ := s
  cases c0 <;> cases q0 <;> simp [closeQueueConnection, getMyQueue] <;> tauto

theorem c9_witness :
    getMyQueue defaultEnv (closeQueueConnection queueReadyState)
      = ((getMyQueue defaultEnv initialState).1, closeQueueConnection queueReadyState) ∧
    (getMyQueue defaultEnv initialState).1.conn
      ∈ (closeQueueConnection queueReadyState).closedConns :=
  ⟨((c9_close_leaves_stale_queue defaultEnv queueReadyState).2.2
      (getMyQueue defaultEnv initialState).1
      (getQueueConnection defaultEnv initialState).1 rfl rfl).1,
   ((c9_close_leaves_stale_queue defaultEnv queueReadyState).2.2
      (getMyQueue defaultEnv initialState).1
      (getQueueConnection defaultEnv initialState).1 rfl rfl).2 rfl⟩

/-- C10: `stopWorker` followed by `startWorker` yields fresh resources: from
a state with a running worker and a cached connection, the restart returns a
Worker instance with a new id, caches it, and the resulting state holds a
connection instance distinct from the one that was closed. -/
theorem c10_stop_then_start_fresh (e : Env) (s : ConfigState) (w : Worker)
    (c : Redis) (hw : s.worker = some w) (hc : s.queueConnection = some c)
    (h : wf s = true) :
    (startWorker e (stopWorker s)).1.id ≠ w.id ∧
    (startWorker e (stopWorker s)).2.worker
      = some (startWorker e (stopWorker s)).1 ∧
    (∃ c2 : Redis, (startWorker e (stopWorker s)).2.queueConnection = some c2 ∧
      c2.id ≠ c.id) := by
  obtain ⟨c0, q0, w0, n0, cc0, cw0⟩ := s
  subst hw; subst hc
  have h1 : c.id < n0 ∧ w.id < n0 := by
    cases q0 <;> simp_all [wf]
  cases q0 <;>
    simp [stopWorker, closeQueueConnection, startWorker, getMyQueue,
      getQueueConnection] <;>
    omega

theorem c10_witness :
    (startWorker defaultEnv (stopWorker startedState)).1.id
      ≠ (startWorker defaultEnv initialState).1.id :=
  (c10_stop_then_start_fresh defaultEnv startedState
    (startWorker defaultEnv initialState).1
    (getQueueConnection defaultEnv initialState).1 rfl rfl (by decide)).1

end JobQueue
